import Mathlib

/-!
Shallow embedding of the crawl-and-analyze pipeline of `src/crawler.py`
(crawl state machine, image acquisition, dedup, vision-analysis calls,
catalog writing), with theorems settling the claims about it.

External collaborators (the HTTP session, the PIL image codec, hashlib md5
and base64) are modelled as components of an explicit environment record:
the embedding of each source function is parametric in that environment and
mirrors the control flow of the Python code line by line.  URLs are
modelled by strings; where the source applies `urlparse(url).path` the
model applies the suffix helpers to the URL string directly (the concrete
inputs used below carry no query or fragment, so the two coincide).
-/

/-- A byte string: each element is one byte value. -/
abbrev Bytes := List Nat

/-- The utf-8 view of a string as bytes, modelling Python `s.encode()`
(for the ASCII strings handled here, code points and bytes coincide). -/
def strBytes (s : String) : Bytes := s.data.map Char.toNat

/-- A decoded image as PIL exposes it: raster content plus the format the
decoder reports (`img.format`, possibly absent). -/
structure PILImage where
  raster : List Nat
  format : Option String
deriving DecidableEq

/-- The external collaborators of `get_image_content`: `hashlib.md5`,
`base64.b64encode` / decode, and the PIL codec (`Image.open`, `verify`,
`save`).  `openImg b = none` models `Image.open` raising on bytes that are
not an image; `verifyOk` models whether `img.verify()` passes; `encode`
models `img.save(buffered, format=fmt)` producing the re-encoded bytes. -/
structure Env where
  md5 : Bytes → String
  b64encode : Bytes → String
  b64decode : String → Bytes
  openImg : Bytes → Option PILImage
  verifyOk : PILImage → Bool
  encode : PILImage → String → Bytes

/-- ASCII lower-casing of one character (Python `str.lower` on the ASCII
strings handled here). -/
def lowerChar (c : Char) : Char :=
  if 'A' ≤ c ∧ c ≤ 'Z' then Char.ofNat (c.toNat + 32) else c

/-- Python `s.lower()`. -/
def strLower (s : String) : String := String.mk (s.data.map lowerChar)

/-- Whether `s` ends with `suffix`, over character lists. -/
def strEndsWith (s suffix : String) : Bool :=
  suffix.data.length ≤ s.data.length &&
    s.data.drop (s.data.length - suffix.data.length) == suffix.data

/-- Whether candidate list `pre` is an initial segment of `l`. -/
def listIsPre : List Char → List Char → Bool
  | [], _ => true
  | _ :: _, [] => false
  | a :: as, b :: bs => a == b && listIsPre as bs

/-- Whether `s` starts with `pre`. -/
def strStartsWith (s pre : String) : Bool := listIsPre pre.data s.data

/-- Python `s.strip()`: whitespace removed from both ends. -/
def pyStrip (s : String) : String :=
  let ws : Char → Bool := fun c => c == ' ' || c == '\t' || c == '\n' || c == '\r'
  String.mk (((s.data.dropWhile ws).reverse.dropWhile ws).reverse)

/-- The allowed image extensions, from `is_valid_image_url` and the
extension check inside `get_image_content`. -/
def image_extensions : List String :=
  [".jpg", ".jpeg", ".png", ".gif", ".bmp", ".webp"]

/-- `is_valid_image_url` of the source: the lower-cased URL path must end
with one of the allowed extensions. -/
def is_valid_image_url (url : String) : Bool :=
  image_extensions.any (fun ext => strEndsWith (strLower url) ext)

/-- The suffix starting at the last dot of a character list, if any. -/
def suffixFromLastDot : List Char → Option (List Char)
  | [] => none
  | c :: cs =>
    match suffixFromLastDot cs with
    | some s => some s
    | none => if c = '.' then some (c :: cs) else none

/-- Python `Path(p).suffix`: the extension of the final path component,
empty when the only dot is the leading character of that component. -/
def pathSuffix (p : String) : String :=
  match (p.data.reverse.takeWhile (fun c => c ≠ '/')).reverse with
  | [] => ""
  | _ :: rest =>
    match suffixFromLastDot rest with
    | some s => String.mk s
    | none => ""

/-- What one run of `get_image_content` produced: the returned pair
(base64 payload, saved path) or the no-result sentinel `(None, None)`, and
the file writes it performed, in order. -/
structure GetImageResult where
  result : Option (String × String)
  writes : List (String × Bytes)
deriving DecidableEq

/-- `get_image_content` (src/crawler.py lines 66-99).  `fetched` is the
outcome of the HTTP GET (`none` models any fetch failure).  The source
writes the raw bytes to `{saveDir}/{md5(content)}{ext}` BEFORE opening and
verifying them; an open or verify failure is caught by the outer handler
and yields the `(None, None)` sentinel, with the file already on disk. -/
def get_image_content (env : Env) (url : String) (fetched : Option Bytes)
    (saveDir : String) : GetImageResult :=
  match fetched with
  | none => ⟨none, []⟩
  | some content =>
    let rawExt := pathSuffix url
    let ext :=
      if rawExt = "" ∨ ¬ (image_extensions.contains (strLower rawExt)) then
        match env.openImg content with
        | some img =>
          match img.format with
          | some f => "." ++ strLower f
          | none => ".jpg"
        | none => ".jpg"
      else rawExt
    let filename := saveDir ++ "/" ++ env.md5 content ++ ext
    let writes := [(filename, content)]
    match env.openImg content with
    | none => ⟨none, writes⟩
    | some img =>
      if env.verifyOk img then
        let fmt := img.format.getD "PNG"
        ⟨some (env.b64encode (env.encode img fmt), filename), writes⟩
      else ⟨none, writes⟩

/-- Whether the fetched bytes survive `Image.open` plus `img.verify()`. -/
def imageVerifies (env : Env) (content : Bytes) : Bool :=
  match env.openImg content with
  | none => false
  | some img => env.verifyOk img

/-- The ordered candidate API paths of the source (`API_PATHS`). -/
def API_PATHS : List String := ["/api/generate", "/v1/generate", "/api/v1/generate"]

/-- `RETRY_ATTEMPTS` of the source. -/
def RETRY_ATTEMPTS : Nat := 3

/-- The loop of `check_ollama_server` over the candidate paths: each path
is probed exactly once (any exception is caught and the loop moves on);
the first path answering status 200 is returned.  The second component is
the list of paths probed, in order. -/
def probePaths (pathStatus : String → Option Nat) :
    List String → Option String × List String
  | [] => (none, [])
  | p :: ps =>
    if pathStatus p = some 200 then (some p, [p])
    else
      let rest := probePaths pathStatus ps
      (rest.1, p :: rest.2)

/-- `check_ollama_server` (lines 32-56): one GET on the server root
(`rootStatus`, `none` modelling a connection exception), demanding status
exactly 200, then one POST per candidate path.  Returns the resolved path
(or `none`) together with the probe trace, `"root"` first. -/
def check_ollama_server (rootStatus : Option Nat)
    (pathStatus : String → Option Nat) : Option String × List String :=
  match rootStatus with
  | none => (none, ["root"])
  | some s =>
    if s = 200 then
      let r := probePaths pathStatus API_PATHS
      (r.1, "root" :: r.2)
    else (none, ["root"])

/-- Outcome of one POST attempt inside `ollama_api_call`: a 200 response
whose JSON body may or may not carry a `response` field, a 404, or any
other failure (exception or non-2xx status raised by `raise_for_status`). -/
inductive ApiResp
  | ok (response : Option String)
  | notFound
  | err
deriving DecidableEq

/-- What one `ollama_api_call` run did: its return value, the sleep
durations awaited between attempts (in seconds, in order), and how many
POST attempts were issued. -/
structure CallResult where
  result : Option String
  sleeps : List Nat
  attempts : Nat
deriving DecidableEq

/-- The retry loop of `ollama_api_call` (lines 113-129).  `attempt` is the
current 0-based attempt index, `remaining` how many loop iterations are
left.  A 404 returns `None` at once; a 200 returns the `response` field
(default `"No response"`); any other failure sleeps `2 ^ attempt` seconds
and retries, except after the final attempt, which returns `None` with no
sleep. -/
def ollama_call_go (responses : Nat → ApiResp) (attempt : Nat) :
    Nat → CallResult
  | 0 => ⟨none, [], 0⟩
  | remaining + 1 =>
    match responses attempt with
    | .notFound => ⟨none, [], 1⟩
    | .ok r => ⟨some (r.getD "No response"), [], 1⟩
    | .err =>
      if remaining = 0 then ⟨none, [], 1⟩
      else
        let rest := ollama_call_go responses (attempt + 1) remaining
        ⟨rest.result, 2 ^ attempt :: rest.sleeps, rest.attempts + 1⟩

/-- `ollama_api_call`, run against an oracle giving the outcome of each
attempt. -/
def ollama_api_call (responses : Nat → ApiResp) : CallResult :=
  ollama_call_go responses 0 RETRY_ATTEMPTS

/-- The describe failure sentinel of `generate_image_description`. -/
def descriptionSentinel : String := "Description unavailable due to API failure"

/-- The degraded-mode placeholder description (line 249 of the source). -/
def degradedDescription : String := "Description unavailable (Ollama API not accessible)"

/-- The moderation value constructed by `moderate_image_content`: a
category string and a confidence (the service contract fixes `category` to
a string; the failure sentinel has category `"Unknown"`, confidence 0). -/
structure Moderation where
  category : String
  confidence : ℚ
deriving DecidableEq

/-- A Python dynamic type error. -/
inductive PyErr
  | typeError
deriving DecidableEq

instance instDecEqExcept {α β : Type} [DecidableEq α] [DecidableEq β] :
    DecidableEq (Except α β) := fun a b =>
  match a, b with
  | .error x, .error y =>
    if h : x = y then isTrue (by rw [h])
    else isFalse (fun hc => h (by injection hc))
  | .error _, .ok _ => isFalse (fun hc => Except.noConfusion hc)
  | .ok _, .error _ => isFalse (fun hc => Except.noConfusion hc)
  | .ok x, .ok y =>
    if h : x = y then isTrue (by rw [h])
    else isFalse (fun hc => h (by injection hc))

/-- Python `s[k]` where `s` is a `str` and `k` a `str`: always raises
`TypeError` (string indices must be integers). -/
def pyStrIndex (_s _k : String) : Except PyErr String := .error .typeError

/-- The skip condition of lines 243-245 of the source, evaluated with
Python short-circuit semantics:
`description == sentinel and content_category == Unknown and
moderation[category][category] == Unknown`.
`moderation[category]` is the string held in the moderation dict, so the
second indexing is a `str[str]` access. -/
def skipCheckEval (description content_category : String)
    (moderation : Moderation) : Except PyErr Bool :=
  if description = descriptionSentinel then
    if content_category = "Unknown" then
      (pyStrIndex moderation.category "category").map (fun v => v = "Unknown")
    else .ok false
  else .ok false

/-- The final values the three analysis helpers return for one image:
`generate_image_description`, `categorize_image_content`,
`moderate_image_content` (each already folds in its own retry and
parse-failure handling). -/
structure AnalysisOutcome where
  describe : String
  category : String
  moderation : Moderation
deriving DecidableEq

/-- One rendered page: the resolved-absolute `img src` values and the
resolved-absolute `a href` values, in document order. -/
structure PageData where
  imgs : List String
  links : List String

/-- The environment of one crawl: the byte-level collaborators, the HTTP
fetch of an image URL (`none` models failure), the per-payload analysis
outcomes (keyed by the base64 payload handed to the client), the page
renderer (`none` models navigation failure or timeout), the host
(`urlparse(u).netloc`) of a URL, and the inference-server discovery
oracles. -/
structure CrawlEnv where
  io : Env
  fetch : String → Option Bytes
  analysis : String → AnalysisOutcome
  pages : String → Option PageData
  host : String → String
  rootStatus : Option Nat
  pathStatus : String → Option Nat

/-- One catalog entry, as built at lines 229-251 of the source. -/
structure ImageEntry where
  source_url : String
  original_image_url : String
  local_path : String
  description : String
  content_category : String
  moderation : Moderation
deriving DecidableEq

/-- Python `set.add` on a set modelled as a duplicate-free list. -/
def setAdd (xs : List String) (x : String) : List String :=
  if x ∈ xs then xs else xs ++ [x]

/-- Accumulator state of the image loop of one page. -/
structure ImagesAcc where
  hashes : List String
  records : List ImageEntry
  apiCalls : Nat
  aborted : Bool
deriving DecidableEq

/-- The image loop of one page (lines 210-254).  For each image URL:
filter by extension; acquire via `get_image_content` (a sentinel result
skips the image); dedup on `md5(base64_payload.encode())`; then either run
the three analysis calls (when an endpoint is resolved) and evaluate the
skip condition — whose `TypeError` propagates to the page-level handler,
aborting the rest of the loop — or fill the degraded placeholders. -/
def processImages (apiPath : Option String) (env : CrawlEnv)
    (pageUrl saveDir : String) : List String → ImagesAcc → ImagesAcc
  | [], acc => acc
  | imgUrl :: rest, acc =>
    if acc.aborted then acc
    else if ¬ is_valid_image_url imgUrl then
      processImages apiPath env pageUrl saveDir rest acc
    else
      match (get_image_content env.io imgUrl (env.fetch imgUrl) saveDir).result with
      | none => processImages apiPath env pageUrl saveDir rest acc
      | some (payload, localPath) =>
        let h := env.io.md5 (strBytes payload)
        if h ∈ acc.hashes then
          processImages apiPath env pageUrl saveDir rest acc
        else
          let hashes := acc.hashes ++ [h]
          match apiPath with
          | some _ =>
            let a := env.analysis payload
            let entry : ImageEntry :=
              ⟨pageUrl, imgUrl, localPath, a.describe, a.category, a.moderation⟩
            let calls := acc.apiCalls + 3
            match skipCheckEval a.describe a.category a.moderation with
            | .error _ => ⟨hashes, acc.records, calls, true⟩
            | .ok true =>
              processImages apiPath env pageUrl saveDir rest
                ⟨hashes, acc.records, calls, false⟩
            | .ok false =>
              processImages apiPath env pageUrl saveDir rest
                ⟨hashes, acc.records ++ [entry], calls, false⟩
          | none =>
            let entry : ImageEntry :=
              ⟨pageUrl, imgUrl, localPath, degradedDescription, "Unknown",
                ⟨"Unknown", 0⟩⟩
            processImages apiPath env pageUrl saveDir rest
              ⟨hashes, acc.records ++ [entry], acc.apiCalls, false⟩

/-- State of the crawl loop of `crawl_website_images`. -/
structure CrawlState where
  visited : List String
  pending : List String
  hashes : List String
  records : List ImageEntry
  apiCalls : Nat
  processed : List String

/-- One iteration of the `while urls_to_visit` loop (lines 197-271):
`none` means the loop exits.  The arbitrary `set.pop()` is modelled as
taking the head of the pending list.  A popped URL already visited is
dropped (line 199); otherwise it is marked visited, navigated (`none`
models a navigation failure, caught at the page level), its images are
processed, and — unless the image loop aborted with the skip-check
`TypeError`, which the page-level handler catches before link extraction —
its same-host links not yet visited are enqueued. -/
def crawlStep (env : CrawlEnv) (apiPath : Option String)
    (rootHost saveDir : String) (s : CrawlState) : Option CrawlState :=
  match s.pending with
  | [] => none
  | u :: rest =>
    if u ∈ s.visited then
      some ⟨s.visited, rest, s.hashes, s.records, s.apiCalls, s.processed⟩
    else
      let visited := s.visited ++ [u]
      match env.pages u with
      | none =>
        some ⟨visited, rest, s.hashes, s.records, s.apiCalls, s.processed ++ [u]⟩
      | some pd =>
        let acc := processImages apiPath env u saveDir pd.imgs
          ⟨s.hashes, s.records, s.apiCalls, false⟩
        let pending :=
          if acc.aborted then rest
          else
            (pd.links.filter
              (fun l => env.host l = rootHost ∧ l ∉ visited)).foldl setAdd rest
        some ⟨visited, pending, acc.hashes, acc.records, acc.apiCalls,
          s.processed ++ [u]⟩

/-- The crawl loop run with fuel (the source loop has no iteration bound;
fuel makes the model total without changing any reachable behavior). -/
def crawlLoop (env : CrawlEnv) (apiPath : Option String)
    (rootHost saveDir : String) : Nat → CrawlState → CrawlState
  | 0, s => s
  | fuel + 1, s =>
    match crawlStep env apiPath rootHost saveDir s with
    | none => s
    | some s2 => crawlLoop env apiPath rootHost saveDir fuel s2

/-- The character replacement of `re.sub` at line 178: any character
outside word characters, dash, underscore, dot and space becomes an
underscore. -/
def sanitizeChar (c : Char) : Char :=
  if c.isAlphanum ∨ c = '_' ∨ c = '-' ∨ c = '.' ∨ c = ' ' then c else '_'

/-- The sanitized host directory name. -/
def sanitize (s : String) : String := String.mk (s.data.map sanitizeChar)

/-- What one `crawl_website_images` call produced: its return value (the
site records, in arrival order), the analysis-call count, and the
discovery probe trace of its single `check_ollama_server` call. -/
structure CrawlOutcome where
  records : List ImageEntry
  apiCalls : Nat
  probes : List String

/-- `crawl_website_images` (lines 169-274): build the per-site directory,
resolve the inference endpoint ONCE for this call (line 190), then run the
frontier loop from the single seed URL.  `fuel` bounds the loop. -/
def crawl_website_images (env : CrawlEnv) (url : String) (jobDir : String)
    (fuel : Nat) : CrawlOutcome :=
  let rootHost := env.host url
  let sanitized := sanitize rootHost
  let sanitizedName := if sanitized = "" then sanitize (env.host ("http://" ++ url)) else sanitized
  let saveDir := jobDir ++ "/" ++ sanitizedName
  let disc := check_ollama_server env.rootStatus env.pathStatus
  let final := crawlLoop env disc.1 rootHost saveDir fuel ⟨[], [url], [], [], 0, []⟩
  ⟨final.records, final.apiCalls, disc.2⟩

/-- The scheme check of line 298 (a regex anchored at the start matching
http or https schemes) and the default-scheme completion of line 299. -/
def ensureScheme (u : String) : String :=
  if strStartsWith u "http://" ∨ strStartsWith u "https://" then u
  else "https://" ++ u

/-- The seed URLs extracted from the CSV rows (line 288): the stripped
first field of every row that has one and whose stripped first field is
nonempty. -/
def cleanedUrls (rows : List (List String)) : List String :=
  rows.filterMap (fun row =>
    match row.head? with
    | none => none
    | some f => if pyStrip f = "" then none else some (pyStrip f))

/-- What one `run_crawler_job_async` run did: its boolean return value,
the final in-memory catalog, the catalog-document writes it performed (in
order), the number of endpoint discoveries performed, the per-seed probe
traces, and the total number of analysis calls. -/
structure JobOutcome where
  success : Bool
  catalog : List ImageEntry
  writes : List (String × List ImageEntry)
  discoveries : Nat
  probes : List (List String)
  apiCalls : Nat

/-- `run_crawler_job_async` (lines 278-315).  `rows = none` models an
unreadable CSV (the outer handler returns `False` with nothing written).
An empty cleaned URL list returns `False` before any crawling.  Otherwise
each seed URL (scheme-completed) is crawled in order — each crawl
performing its own endpoint discovery — results are concatenated in seed
order, and the catalog document is written exactly once at the end. -/
def run_crawler_job (env : CrawlEnv) (rows : Option (List (List String)))
    (jobDir : String) (fuel : Nat) : JobOutcome :=
  match rows with
  | none => ⟨false, [], [], 0, [], 0⟩
  | some rs =>
    let urls := cleanedUrls rs
    if urls = [] then ⟨false, [], [], 0, [], 0⟩
    else
      let outs := urls.map (fun u => crawl_website_images env (ensureScheme u) jobDir fuel)
      let catalog := (outs.map CrawlOutcome.records).flatten
      ⟨true, catalog, [(jobDir ++ "/analysis_results.json", catalog)],
        urls.length, outs.map CrawlOutcome.probes,
        (outs.map CrawlOutcome.apiCalls).sum⟩

/-- The extension `get_image_content` chooses for fetched bytes `c` at URL
`u`: the URL suffix when allowed, else the decoder-reported format, else
the fixed default. -/
def extFor (env : Env) (u : String) (c : Bytes) : String :=
  let rawExt := pathSuffix u
  if rawExt = "" ∨ ¬ (image_extensions.contains (strLower rawExt)) then
    match env.openImg c with
    | some img =>
      match img.format with
      | some f => "." ++ strLower f
      | none => ".jpg"
    | none => ".jpg"
  else rawExt

/-- The base64 payload `get_image_content` produces for fetched bytes `c`,
when open and verify succeed. -/
def canonicalPayload (env : Env) (c : Bytes) : Option String :=
  match env.openImg c with
  | none => none
  | some img =>
    if env.verifyOk img then
      some (env.b64encode (env.encode img (img.format.getD "PNG")))
    else none

/-- A record carries the fixed degraded-mode placeholder values of lines
249-251 of the source. -/
def isPlaceholder (e : ImageEntry) : Prop :=
  e.description = degradedDescription ∧ e.content_category = "Unknown" ∧
    e.moderation = ⟨"Unknown", 0⟩

instance (e : ImageEntry) : Decidable (isPlaceholder e) := by
  unfold isPlaceholder; infer_instance

/-- A concrete byte-level environment: a toy injective hash and codec,
with the re-encoder returning the raster unchanged. -/
def demoBytesEnv : Env :=
  ⟨fun b => toString b,
   fun b => "b64:" ++ toString b,
   fun _ => [],
   fun b => some ⟨b, some "png"⟩,
   fun _ => true,
   fun img _ => img.raster⟩

/-- A concrete crawl environment whose pages carry no images or links and
whose inference server answers 404 on every candidate path. -/
def demoEnvBase : CrawlEnv :=
  ⟨demoBytesEnv,
   fun _ => some [1],
   fun _ => ⟨"a cat", "Animal", ⟨"Normal", 1⟩⟩,
   fun _ => some ⟨[], []⟩,
   fun u => u,
   some 200,
   fun _ => some 404⟩

/-- A concrete crawl environment in which two seed pages reference
byte-identical image content, with the inference server unreachable
(404 on every candidate path, hence degraded mode). -/
def dupEnv : CrawlEnv :=
  ⟨demoBytesEnv,
   fun _ => some [1],
   fun _ => ⟨"a cat", "Animal", ⟨"Normal", 1⟩⟩,
   fun u => if u = "https://a.com" ∨ u = "https://b.com"
            then some ⟨["x.jpg"], []⟩ else none,
   fun _ => "h",
   some 200,
   fun _ => some 404⟩

/-- A byte-level environment whose codec rejects every payload: every
fetched byte string fails `Image.open` / `verify`. -/
def corruptBytesEnv : Env :=
  ⟨fun b => toString b,
   fun b => toString b,
   fun _ => [],
   fun _ => none,
   fun _ => false,
   fun img _ => img.raster⟩

/-- A crawl environment over `corruptBytesEnv`: fetches succeed but no payload
survives image verification. -/
def corruptCrawlEnv : CrawlEnv :=
  ⟨corruptBytesEnv,
   fun _ => some [7],
   fun _ => ⟨"d", "c", ⟨"m", 0⟩⟩,
   fun _ => none,
   fun u => u,
   some 200,
   fun _ => some 404⟩

/-- A byte-level environment whose base64 decoder inverts the encoder on
the payload produced for the content `[3]`. -/
def roundBytesEnv : Env :=
  ⟨fun b => toString b,
   fun b => "b64:" ++ toString b,
   fun s => if s = "b64:" ++ toString ([3] : Bytes) then [3] else [],
   fun b => some ⟨b, some "png"⟩,
   fun _ => true,
   fun img _ => img.raster⟩

/-- A concrete crawl environment with an endpoint resolved at
`/api/generate` and one page `p` carrying two images: every analysis call
for the first image returns its failure sentinel, every call for the
second succeeds. -/
def c1Env : CrawlEnv :=
  ⟨demoBytesEnv,
   fun u => if u = "i1.jpg" then some [1]
            else if u = "i2.jpg" then some [2] else none,
   fun p => if p = "b64:[1]"
     then ⟨descriptionSentinel, "Unknown", ⟨"Unknown", 0⟩⟩
     else ⟨"a cat", "Animal", ⟨"Normal", 1⟩⟩,
   fun u => if u = "p" then some ⟨["i1.jpg", "i2.jpg"], []⟩ else none,
   fun _ => "h",
   some 200,
   fun pth => if pth = "/api/generate" then some 200 else some 404⟩

/-- The same crawl environment as `c1Env` except that the analysis calls
for the first image also succeed. -/
def c1EnvOk : CrawlEnv :=
  ⟨demoBytesEnv,
   fun u => if u = "i1.jpg" then some [1]
            else if u = "i2.jpg" then some [2] else none,
   fun _ => ⟨"a cat", "Animal", ⟨"Normal", 1⟩⟩,
   fun u => if u = "p" then some ⟨["i1.jpg", "i2.jpg"], []⟩ else none,
   fun _ => "h",
   some 200,
   fun pth => if pth = "/api/generate" then some 200 else some 404⟩

theorem gic_eq (env : Env) (u : String) (c : Bytes) (dir : String) :
    get_image_content env u (some c) dir =
      ⟨(canonicalPayload env c).map
          (fun p => (p, dir ++ "/" ++ env.md5 c ++ extFor env u c)),
        [(dir ++ "/" ++ env.md5 c ++ extFor env u c, c)]⟩ := by
  cases ho : env.openImg c with
  | none => simp [get_image_content, canonicalPayload, extFor, ho]
  | some img =>
    cases hv : env.verifyOk img with
    | false => simp [get_image_content, canonicalPayload, extFor, ho, hv]
    | true => simp [get_image_content, canonicalPayload, extFor, ho, hv]

theorem ollama_call_go_attempts_le (resp : Nat → ApiResp) :
    ∀ rem a, (ollama_call_go resp a rem).attempts ≤ rem := by
  intro rem
  induction rem with
  | zero => intro a; simp [ollama_call_go]
  | succ n ih =>
    intro a
    simp only [ollama_call_go]
    cases h : resp a with
    | ok r => simp
    | notFound => simp
    | err =>
      by_cases hn : n = 0
      · simp [hn]
      · simp only [hn, if_false]
        exact Nat.succ_le_succ (ih (a + 1))

/-- C4: the claim as stated requires backoff delays of 1s, 2s and 4s
before the call degrades; on three consecutive failures the source sleeps
only after the first and second failed attempts (`if attempt <
RETRY_ATTEMPTS - 1`), so the observed delays are 1s and 2s, with no 4s
sleep. -/
theorem c4_counterexample :
    (ollama_api_call (fun _ => .err)).result = none ∧
    (ollama_api_call (fun _ => .err)).attempts = 3 ∧
    (ollama_api_call (fun _ => .err)).sleeps = [1, 2] ∧
    (ollama_api_call (fun _ => .err)).sleeps ≠ [1, 2, 4] := by
  decide

/-- C4 (amended): each call makes at most `RETRY_ATTEMPTS = 3` attempts;
when every attempt fails with a non-404 error, exponential backoff delays
of 1s and 2s are observed (after the first and second attempts; none after
the third) and the call degrades to its `None` sentinel instead of
raising; a definitive 404 response short-circuits immediately with no
retry and no sleep. -/
theorem c4_retry_backoff (r1 r2 : Nat → ApiResp)
    (h1 : ∀ k, r1 k = .err) (h2 : r2 0 = .notFound) :
    ollama_api_call r1 = ⟨none, [1, 2], 3⟩ ∧
    ollama_api_call r2 = ⟨none, [], 1⟩ ∧
    ∀ r : Nat → ApiResp, (ollama_api_call r).attempts ≤ RETRY_ATTEMPTS := by
  refine ⟨?_, ?_, ?_⟩
  · simp [ollama_api_call, RETRY_ATTEMPTS, ollama_call_go, h1 0, h1 1, h1 2]
  · simp [ollama_api_call, RETRY_ATTEMPTS, ollama_call_go, h2]
  · intro r
    exact ollama_call_go_attempts_le r RETRY_ATTEMPTS 0

/-- C4 witness: the amended retry statement at concrete attempt oracles. -/
theorem c4_retry_backoff_witness :
    ollama_api_call (fun _ => .err) = ⟨none, [1, 2], 3⟩ ∧
    ollama_api_call (fun _ => .notFound) = ⟨none, [], 1⟩ ∧
    (ollama_api_call (fun _ => .ok none)).attempts ≤ RETRY_ATTEMPTS := by
  have h := c4_retry_backoff (fun _ => .err) (fun _ => .notFound)
    (fun _ => rfl) rfl
  exact ⟨h.1, h.2.1, h.2.2 (fun _ => .ok none)⟩

/-- C10: a readable seed CSV in which no row has a nonempty first field
makes the job return failure before any crawling: no discovery, no
records, and no catalog write. -/
theorem c10_no_urls_fails (env : CrawlEnv) (rows : List (List String))
    (jobDir : String) (fuel : Nat) (h : cleanedUrls rows = []) :
    (run_crawler_job env (some rows) jobDir fuel).success = false ∧
    (run_crawler_job env (some rows) jobDir fuel).writes = [] ∧
    (run_crawler_job env (some rows) jobDir fuel).catalog = [] ∧
    (run_crawler_job env (some rows) jobDir fuel).discoveries = 0 := by
  simp [run_crawler_job, h]


theorem probePaths_find (f : String → Option Nat) :
    ∀ l : List String,
      (probePaths f l).1 = l.find? (fun p => decide (f p = some 200)) := by
  intro l
  induction l with
  | nil => rfl
  | cons p ps ih =>
    by_cases h : f p = some 200
    · simp [probePaths, h]
    · simp [probePaths, h, ih]

/-- C5: the claim as stated requires endpoint discovery exactly once per
job even with several seed URLs, and caching of the first path answering
any 2xx status.  The source calls `check_ollama_server` inside
`crawl_website_images`, i.e. once per seed URL: a job with two seeds
performs two discoveries.  Moreover only status exactly 200 is accepted: a
path answering 204 (a 2xx status) is not cached. -/
theorem c5_counterexample :
    (run_crawler_job demoEnvBase (some [["a.com"], ["b.com"]]) "job" 1).discoveries = 2 ∧
    (run_crawler_job demoEnvBase (some [["a.com"], ["b.com"]]) "job" 1).discoveries ≠ 1 ∧
    (check_ollama_server (some 200) (fun _ => some 204)).1 = none := by
  decide

/-- C5 (amended): endpoint discovery (root liveness probe demanding
status exactly 200, then the ordered candidate paths probed with a
connectivity prompt) is performed once per seed-URL crawl — a job performs
one discovery per cleaned seed URL — and within one crawl the first
candidate path answering status exactly 200 is cached and reused for that
whole crawl. -/
theorem c5_discovery_per_seed (env : CrawlEnv) (rs : List (List String))
    (jobDir : String) (fuel : Nat) (hne : cleanedUrls rs ≠ []) :
    (run_crawler_job env (some rs) jobDir fuel).discoveries =
      (cleanedUrls rs).length ∧
    (∀ f : String → Option Nat,
      (check_ollama_server (some 200) f).1 =
        API_PATHS.find? (fun p => decide (f p = some 200))) := by
  constructor
  · simp [run_crawler_job, hne]
  · intro f
    simp [check_ollama_server, probePaths_find]

/-- C5 witness: the amended discovery statement at a concrete job. -/
theorem c5_discovery_per_seed_witness :
    (run_crawler_job demoEnvBase (some [["a.com"]]) "job" 1).discoveries =
      (cleanedUrls [["a.com"]]).length ∧
    (check_ollama_server (some 200) (fun _ => some 404)).1 =
      API_PATHS.find?
        (fun p => decide ((fun _ : String => (some 404 : Option Nat)) p = some 200)) := by
  have h := c5_discovery_per_seed demoEnvBase [["a.com"]] "job" 1 (by decide)
  exact ⟨h.1, h.2 _⟩

/-- C3: the claim as stated requires that a payload failing image
verification is never written under the per-site directory.  The source
writes the raw bytes at lines 84-85 BEFORE `Image.open` and `verify` at
lines 88-89: with a codec rejecting the payload `[7]` fetched from
`a.jpg`, the call returns the no-result sentinel yet the file write of
`d/[7].jpg` has already happened. -/
theorem c3_counterexample :
    (get_image_content corruptBytesEnv "a.jpg" (some [7]) "d").result = none ∧
    (get_image_content corruptBytesEnv "a.jpg" (some [7]) "d").writes =
      [("d/[7].jpg", [7])] ∧
    (get_image_content corruptBytesEnv "a.jpg" (some [7]) "d").writes ≠ [] := by
  decide

/-- C3 (amended): for every image URL passing the suffix filter, the
fetched bytes are persisted to the per-site path BEFORE decode-and-verify;
a payload failing image verification is therefore still written to disk,
but the call returns the no-result sentinel, and the caller skips that
image and continues with the remaining images of the page. -/
theorem c3_persist_before_verify (env : Env) (cenv : CrawlEnv)
    (url imgUrl : String) (content : Bytes) (dir pageUrl saveDir : String)
    (apiPath : Option String) (rest : List String) (acc : ImagesAcc)
    (h : imageVerifies env content = false)
    (h2 : (get_image_content cenv.io imgUrl (cenv.fetch imgUrl) saveDir).result = none) :
    (get_image_content env url (some content) dir).result = none ∧
    (get_image_content env url (some content) dir).writes =
      [(dir ++ "/" ++ env.md5 content ++ extFor env url content, content)] ∧
    processImages apiPath cenv pageUrl saveDir (imgUrl :: rest) acc =
      processImages apiPath cenv pageUrl saveDir rest acc := by
  refine ⟨?_, ?_, ?_⟩
  · rw [gic_eq]
    unfold imageVerifies at h
    unfold canonicalPayload
    cases ho : env.openImg content with
    | none => simp
    | some img =>
      rw [ho] at h
      simp at h
      simp [h]
  · rw [gic_eq]
  · cases hab : acc.aborted with
    | true =>
      cases rest with
      | nil => simp [processImages, hab]
      | cons r rs => simp [processImages, hab]
    | false =>
      by_cases hv : is_valid_image_url imgUrl = true
      · simp [processImages, hab, hv, h2]
      · simp [processImages, hab, hv]

/-- C3 witness: the amended persist-before-verify statement at a concrete
rejecting codec and page. -/
theorem c3_persist_before_verify_witness :
    (get_image_content corruptBytesEnv "a.jpg" (some [7]) "d").result = none ∧
    (get_image_content corruptBytesEnv "a.jpg" (some [7]) "d").writes =
      [("d" ++ "/" ++ corruptBytesEnv.md5 [7] ++ extFor corruptBytesEnv "a.jpg" [7], [7])] ∧
    processImages (some "/api/generate") corruptCrawlEnv "p" "s"
        ("i.jpg" :: []) ⟨[], [], 0, false⟩ =
      processImages (some "/api/generate") corruptCrawlEnv "p" "s"
        [] ⟨[], [], 0, false⟩ :=
  c3_persist_before_verify corruptBytesEnv corruptCrawlEnv "a.jpg" "i.jpg" [7] "d"
    "p" "s" (some "/api/generate") [] ⟨[], [], 0, false⟩ (by decide) (by decide)

/-- C2: the claim as stated requires a single content hash over the
decoded bytes to serve as both filename stem and dedup key, with
byte-identical images collapsing to one file and one record per job.  In
the source the filename stem is `md5(raw fetched bytes)` (line 81) while
the dedup key is `md5(base64_payload.encode())` (line 223) — two different
hashes of different inputs; byte-identical content fetched at URLs with
different extensions is saved under two distinct paths; and the dedup set
is local to one `crawl_website_images` call, so the same content reached
from two seed URLs of one job yields two catalog records. -/
theorem c2_counterexample :
    (get_image_content demoBytesEnv "a.jpg" (some [1]) "d").result =
      some ("b64:[1]", "d/[1].jpg") ∧
    demoBytesEnv.md5 (strBytes "b64:[1]") ≠ "[1]" ∧
    (get_image_content demoBytesEnv "b.png" (some [1]) "d").result =
      some ("b64:[1]", "d/[1].png") ∧
    ("d/[1].jpg" : String) ≠ "d/[1].png" ∧
    (run_crawler_job dupEnv (some [["a.com"], ["b.com"]]) "job" 2).catalog.length = 2 := by
  decide

/-- C2 (amended): the filename stem is a hash of the raw fetched bytes
and the dedup key is a separate hash of the utf-8 base64 of the
re-encoded bytes; both are deterministic functions of the fetched bytes,
so within one seed-URL crawl two images with byte-identical fetched
content receive the same payload — hence at most one ImageRecord — and the
same saved path whenever their URL suffixes agree.  Dedup scope is one
`crawl_website_images` call, not the whole job. -/
theorem c2_dedup_within_crawl (env : CrawlEnv) (u1 u2 : String) (c : Bytes)
    (dir pageUrl : String) (apiPath : Option String)
    (hf1 : env.fetch u1 = some c) (hf2 : env.fetch u2 = some c)
    (hv1 : is_valid_image_url u1 = true) (hv2 : is_valid_image_url u2 = true) :
    (∀ p1 f1 p2 f2,
      (get_image_content env.io u1 (some c) dir).result = some (p1, f1) →
      (get_image_content env.io u2 (some c) dir).result = some (p2, f2) →
      p1 = p2 ∧ (pathSuffix u1 = pathSuffix u2 → f1 = f2)) ∧
    (processImages apiPath env pageUrl dir [u1, u2]
      ⟨[], [], 0, false⟩).records.length ≤ 1 := by
  constructor
  · intro p1 f1 p2 f2 h1 h2
    rw [gic_eq] at h1 h2
    cases hcp : canonicalPayload env.io c with
    | none => rw [hcp] at h1; simp at h1
    | some p =>
      rw [hcp] at h1 h2
      simp at h1 h2
      obtain ⟨hp1, hf1e⟩ := h1
      obtain ⟨hp2, hf2e⟩ := h2
      constructor
      · rw [← hp1, ← hp2]
      · intro hsuf
        rw [← hf1e, ← hf2e]
        unfold extFor
        rw [hsuf]
  · cases hcp : canonicalPayload env.io c with
    | none =>
      have hr1 : (get_image_content env.io u1 (env.fetch u1) dir).result = none := by
        rw [hf1, gic_eq, hcp]; rfl
      have hr2 : (get_image_content env.io u2 (env.fetch u2) dir).result = none := by
        rw [hf2, gic_eq, hcp]; rfl
      simp [processImages, hv1, hv2, hr1, hr2]
    | some p =>
      have hr1 : (get_image_content env.io u1 (env.fetch u1) dir).result =
          some (p, dir ++ "/" ++ env.io.md5 c ++ extFor env.io u1 c) := by
        rw [hf1, gic_eq, hcp]; rfl
      have hr2 : (get_image_content env.io u2 (env.fetch u2) dir).result =
          some (p, dir ++ "/" ++ env.io.md5 c ++ extFor env.io u2 c) := by
        rw [hf2, gic_eq, hcp]; rfl
      cases apiPath with
      | none =>
        simp [processImages, hv1, hv2, hr1, hr2]
      | some ap =>
        rcases hsk : skipCheckEval (env.analysis p).describe
            (env.analysis p).category (env.analysis p).moderation with e | b
        · simp [processImages, hv1, hv2, hr1, hr2, hsk]
        · cases b with
          | true => simp [processImages, hv1, hv2, hr1, hr2, hsk]
          | false => simp [processImages, hv1, hv2, hr1, hr2, hsk]

/-- C2 witness: the amended dedup statement at a concrete environment in
which two URLs fetch byte-identical content. -/
theorem c2_dedup_within_crawl_witness :
    (∀ p1 f1 p2 f2,
      (get_image_content dupEnv.io "x.jpg" (some [1]) "d").result = some (p1, f1) →
      (get_image_content dupEnv.io "y.jpg" (some [1]) "d").result = some (p2, f2) →
      p1 = p2 ∧ (pathSuffix "x.jpg" = pathSuffix "y.jpg" → f1 = f2)) ∧
    (processImages none dupEnv "p" "d" ["x.jpg", "y.jpg"]
      ⟨[], [], 0, false⟩).records.length ≤ 1 :=
  c2_dedup_within_crawl dupEnv "x.jpg" "y.jpg" [1] "d" "p" none rfl rfl
    (by decide) (by decide)

theorem crawlStep_inv (env : CrawlEnv) (apiPath : Option String)
    (rootHost saveDir : String) (s s2 : CrawlState)
    (hstep : crawlStep env apiPath rootHost saveDir s = some s2)
    (h1 : s.processed.Nodup) (h2 : ∀ u ∈ s.processed, u ∈ s.visited) :
    s2.processed.Nodup ∧ ∀ u ∈ s2.processed, u ∈ s2.visited := by
  obtain ⟨vis, pend, hsh, recs, api, proc⟩ := s
  simp only at h1 h2
  cases pend with
  | nil => exact absurd hstep (by simp [crawlStep])
  | cons u rest =>
    simp only [crawlStep] at hstep
    by_cases hu : u ∈ vis
    · rw [if_pos hu] at hstep
      injection hstep with h
      subst h
      exact ⟨h1, h2⟩
    · rw [if_neg hu] at hstep
      have hnp : u ∉ proc := fun hmem => hu (h2 u hmem)
      have hnodup : (proc ++ [u]).Nodup := by
        simp [List.nodup_append, h1, hnp]
      have hmem2 : ∀ v ∈ proc ++ [u], v ∈ vis ++ [u] := by
        intro v hv
        rcases List.mem_append.mp hv with hv1 | hv2
        · exact List.mem_append_left _ (h2 v hv1)
        · exact List.mem_append_right _ hv2
      cases hpg : env.pages u with
      | none =>
        rw [hpg] at hstep
        injection hstep with h
        subst h
        exact ⟨hnodup, hmem2⟩
      | some pd =>
        rw [hpg] at hstep
        injection hstep with h
        subst h
        exact ⟨hnodup, hmem2⟩

theorem crawlLoop_inv (env : CrawlEnv) (apiPath : Option String)
    (rootHost saveDir : String) :
    ∀ (fuel : Nat) (s : CrawlState),
      s.processed.Nodup → (∀ u ∈ s.processed, u ∈ s.visited) →
      (crawlLoop env apiPath rootHost saveDir fuel s).processed.Nodup ∧
        ∀ u ∈ (crawlLoop env apiPath rootHost saveDir fuel s).processed,
          u ∈ (crawlLoop env apiPath rootHost saveDir fuel s).visited := by
  intro fuel
  induction fuel with
  | zero => intro s h1 h2; exact ⟨h1, h2⟩
  | succ n ih =>
    intro s h1 h2
    simp only [crawlLoop]
    cases hstep : crawlStep env apiPath rootHost saveDir s with
    | none => exact ⟨h1, h2⟩
    | some s2 =>
      have hinv := crawlStep_inv env apiPath rootHost saveDir s s2 hstep h1 h2
      exact ih s2 hinv.1 hinv.2

/-- C6: the crawl loop exits exactly when the pending set is empty, and
over any page graph and any fuel, the list of URLs navigated and
processed by one crawl (started from its seed) contains no URL twice:
every URL ever enqueued is visited at most once. -/
theorem c6_frontier_at_most_once :
    (∀ (env : CrawlEnv) (apiPath : Option String) (rootHost saveDir : String)
       (s : CrawlState),
       crawlStep env apiPath rootHost saveDir s = none ↔ s.pending = []) ∧
    ∀ (env : CrawlEnv) (apiPath : Option String)
      (rootHost saveDir rootUrl : String) (fuel : Nat),
      (crawlLoop env apiPath rootHost saveDir fuel
        ⟨[], [rootUrl], [], [], 0, []⟩).processed.Nodup := by
  constructor
  · intro env apiPath rootHost saveDir s
    obtain ⟨vis, pend, hsh, recs, api, proc⟩ := s
    constructor
    · intro h
      cases pend with
      | nil => rfl
      | cons u rest =>
        exfalso
        simp only [crawlStep] at h
        by_cases hu : u ∈ vis
        · rw [if_pos hu] at h
          exact Option.noConfusion h
        · rw [if_neg hu] at h
          cases hpg : env.pages u with
          | none =>
            rw [hpg] at h
            exact Option.noConfusion h
          | some pd =>
            rw [hpg] at h
            exact Option.noConfusion h
    · intro h
      simp only at h
      subst h
      rfl
  · intro env apiPath rootHost saveDir rootUrl fuel
    exact (crawlLoop_inv env apiPath rootHost saveDir fuel
      ⟨[], [rootUrl], [], [], 0, []⟩ (List.nodup_nil) (by simp)).1

theorem check_all_404 (f : String → Option Nat) (hf : ∀ p, f p = some 404) :
    check_ollama_server (some 200) f = (none, "root" :: API_PATHS) := by
  simp [check_ollama_server, API_PATHS, probePaths, hf]

theorem processImages_none_placeholder (env : CrawlEnv) (pageUrl saveDir : String) :
    ∀ (imgs : List String) (acc : ImagesAcc),
      (∀ e ∈ acc.records, isPlaceholder e) →
      (∀ e ∈ (processImages none env pageUrl saveDir imgs acc).records,
        isPlaceholder e) ∧
      (processImages none env pageUrl saveDir imgs acc).apiCalls = acc.apiCalls := by
  intro imgs
  induction imgs with
  | nil => intro acc h; exact ⟨h, rfl⟩
  | cons i rest ih =>
    intro acc h
    simp only [processImages]
    split
    · exact ⟨h, rfl⟩
    · split
      · exact ih acc h
      · split
        · exact ih acc h
        · split
          · exact ih acc h
          · apply ih
            intro e he
            rcases List.mem_append.mp he with he1 | he2
            · exact h e he1
            · rw [List.mem_singleton.mp he2]
              exact ⟨rfl, rfl, rfl⟩

theorem crawlLoop_none_placeholder (env : CrawlEnv) (rootHost saveDir : String) :
    ∀ (fuel : Nat) (s : CrawlState),
      (∀ e ∈ s.records, isPlaceholder e) →
      (∀ e ∈ (crawlLoop env none rootHost saveDir fuel s).records,
        isPlaceholder e) ∧
      (crawlLoop env none rootHost saveDir fuel s).apiCalls = s.apiCalls := by
  intro fuel
  induction fuel with
  | zero => intro s h; exact ⟨h, rfl⟩
  | succ n ih =>
    intro s h
    simp only [crawlLoop]
    obtain ⟨vis, pend, hsh, recs, api, proc⟩ := s
    simp only at h
    cases pend with
    | nil => exact ⟨h, rfl⟩
    | cons u rest =>
      simp only [crawlStep]
      by_cases hu : u ∈ vis
      · rw [if_pos hu]
        exact ih _ h
      · rw [if_neg hu]
        cases hpg : env.pages u with
        | none => exact ih _ h
        | some pd =>
          have hpi := processImages_none_placeholder env u saveDir pd.imgs
            ⟨hsh, recs, api, false⟩ h
          have := ih ⟨vis ++ [u],
            if (processImages none env u saveDir pd.imgs ⟨hsh, recs, api, false⟩).aborted = true
              then rest
              else List.foldl setAdd rest
                (List.filter (fun l => decide (env.host l = rootHost ∧ l ∉ vis ++ [u])) pd.links),
            (processImages none env u saveDir pd.imgs ⟨hsh, recs, api, false⟩).hashes,
            (processImages none env u saveDir pd.imgs ⟨hsh, recs, api, false⟩).records,
            (processImages none env u saveDir pd.imgs ⟨hsh, recs, api, false⟩).apiCalls,
            proc ++ [u]⟩ hpi.1
          exact ⟨this.1, this.2.trans hpi.2⟩

theorem crawl_degraded (env : CrawlEnv) (url jobDir : String) (fuel : Nat)
    (hroot : env.rootStatus = some 200)
    (hpath : ∀ p, env.pathStatus p = some 404) :
    (∀ e ∈ (crawl_website_images env url jobDir fuel).records, isPlaceholder e) ∧
    (crawl_website_images env url jobDir fuel).apiCalls = 0 ∧
    (crawl_website_images env url jobDir fuel).probes = "root" :: API_PATHS := by
  unfold crawl_website_images
  rw [hroot, check_all_404 env.pathStatus hpath]
  have hc := crawlLoop_none_placeholder env (env.host url)
    (jobDir ++ "/" ++
      (if sanitize (env.host url) = ""
        then sanitize (env.host ("http://" ++ url)) else sanitize (env.host url)))
    fuel ⟨[], [url], [], [], 0, []⟩ (by simp)
  exact ⟨hc.1, hc.2, rfl⟩

/-- C7: when endpoint discovery finds no working path (root alive, every
candidate path answering 404), the job runs in degraded mode: it still
succeeds and writes a catalog, issues zero analysis calls, gives every
record the fixed placeholder description, category and moderation values,
and the discovery trace probes the root and each candidate path exactly
once, with no retries of the not-found responses. -/
theorem c7_degraded_job (env : CrawlEnv) (rs : List (List String))
    (jobDir : String) (fuel : Nat)
    (hroot : env.rootStatus = some 200)
    (hpath : ∀ p, env.pathStatus p = some 404)
    (hne : cleanedUrls rs ≠ []) :
    (run_crawler_job env (some rs) jobDir fuel).success = true ∧
    (run_crawler_job env (some rs) jobDir fuel).writes =
      [(jobDir ++ "/analysis_results.json",
        (run_crawler_job env (some rs) jobDir fuel).catalog)] ∧
    (run_crawler_job env (some rs) jobDir fuel).apiCalls = 0 ∧
    (∀ e ∈ (run_crawler_job env (some rs) jobDir fuel).catalog, isPlaceholder e) ∧
    (run_crawler_job env (some rs) jobDir fuel).probes =
      (cleanedUrls rs).map (fun _ => "root" :: API_PATHS) := by
  simp only [run_crawler_job, if_neg hne]
  refine ⟨trivial, trivial, ?_, ?_, ?_⟩
  · rw [List.map_map]
    apply List.sum_eq_zero
    intro x hx
    rcases List.mem_map.mp hx with ⟨u, hu, hxu⟩
    rw [← hxu]
    exact (crawl_degraded env (ensureScheme u) jobDir fuel hroot hpath).2.1
  · intro e he
    rw [List.map_map] at he
    rcases List.mem_flatten.mp he with ⟨li, hli, hei⟩
    rcases List.mem_map.mp hli with ⟨u, hu, hlu⟩
    rw [← hlu] at hei
    exact (crawl_degraded env (ensureScheme u) jobDir fuel hroot hpath).1 e hei
  · rw [List.map_map]
    apply List.map_congr_left
    intro u hu
    exact (crawl_degraded env (ensureScheme u) jobDir fuel hroot hpath).2.2

/-- C7 witness: the degraded-mode statement at a concrete job whose one
seed page references one image, against a server answering 404 on every
candidate path. -/
theorem c7_degraded_job_witness :
    (run_crawler_job dupEnv (some [["a.com"]]) "job" 2).success = true ∧
    (run_crawler_job dupEnv (some [["a.com"]]) "job" 2).writes =
      [("job" ++ "/analysis_results.json",
        (run_crawler_job dupEnv (some [["a.com"]]) "job" 2).catalog)] ∧
    (run_crawler_job dupEnv (some [["a.com"]]) "job" 2).apiCalls = 0 ∧
    (∀ e ∈ (run_crawler_job dupEnv (some [["a.com"]]) "job" 2).catalog,
      isPlaceholder e) ∧
    (run_crawler_job dupEnv (some [["a.com"]]) "job" 2).probes =
      (cleanedUrls [["a.com"]]).map (fun _ => "root" :: API_PATHS) :=
  c7_degraded_job dupEnv [["a.com"]] "job" 2 rfl (fun _ => rfl) (by decide)

theorem isPre_refl {α : Type} (l : List α) : l <+: l := ⟨[], List.append_nil l⟩

theorem isPre_app {α : Type} (l t : List α) : l <+: l ++ t := ⟨t, rfl⟩

theorem processImages_records_pre (apiPath : Option String) (env : CrawlEnv)
    (pageUrl saveDir : String) :
    ∀ (imgs : List String) (acc : ImagesAcc),
      acc.records <+: (processImages apiPath env pageUrl saveDir imgs acc).records := by
  intro imgs
  induction imgs with
  | nil => intro acc; exact isPre_refl _
  | cons i rest ih =>
    intro acc
    simp only [processImages]
    split
    · exact isPre_refl _
    · split
      · exact ih acc
      · split
        · exact ih acc
        · split
          · exact ih acc
          · split
            · split
              · exact isPre_refl _
              · exact ih ⟨_, acc.records, _, false⟩
              · exact (isPre_app acc.records _).trans
                  (ih ⟨_, acc.records ++ [_], _, false⟩)
            · exact (isPre_app acc.records _).trans
                (ih ⟨_, acc.records ++ [_], _, false⟩)

theorem crawlLoop_records_pre (env : CrawlEnv) (apiPath : Option String)
    (rootHost saveDir : String) :
    ∀ (fuel : Nat) (s : CrawlState),
      s.records <+: (crawlLoop env apiPath rootHost saveDir fuel s).records := by
  intro fuel
  induction fuel with
  | zero => intro s; exact isPre_refl _
  | succ n ih =>
    intro s
    simp only [crawlLoop]
    obtain ⟨vis, pend, hsh, recs, api, proc⟩ := s
    cases pend with
    | nil => exact isPre_refl _
    | cons u rest =>
      simp only [crawlStep]
      by_cases hu : u ∈ vis
      · rw [if_pos hu]
        exact ih ⟨vis, rest, hsh, recs, api, proc⟩
      · rw [if_neg hu]
        cases hpg : env.pages u with
        | none =>
          exact ih ⟨vis ++ [u], rest, hsh, recs, api, proc ++ [u]⟩
        | some pd =>
          have hpi := processImages_records_pre apiPath env u saveDir pd.imgs
            ⟨hsh, recs, api, false⟩
          have hloop := ih ⟨vis ++ [u],
            if (processImages apiPath env u saveDir pd.imgs
                ⟨hsh, recs, api, false⟩).aborted = true
              then rest
              else List.foldl setAdd rest
                (List.filter
                  (fun l => decide (env.host l = rootHost ∧ l ∉ vis ++ [u]))
                  pd.links),
            (processImages apiPath env u saveDir pd.imgs ⟨hsh, recs, api, false⟩).hashes,
            (processImages apiPath env u saveDir pd.imgs ⟨hsh, recs, api, false⟩).records,
            (processImages apiPath env u saveDir pd.imgs ⟨hsh, recs, api, false⟩).apiCalls,
            proc ++ [u]⟩
          exact hpi.trans hloop

/-- C8: within a crawl the record list is append-only (every intermediate
record list is a prefix of the final one, so records stay in arrival
order), and at job level either the job succeeds and its single
catalog-document write, performed at completion, holds exactly the ordered
concatenation of the per-seed record lists, or the job fails and nothing
is written. -/
theorem c8_catalog_written_once_at_end :
    (∀ (env : CrawlEnv) (apiPath : Option String) (rootHost saveDir : String)
       (fuel : Nat) (s : CrawlState),
       s.records <+: (crawlLoop env apiPath rootHost saveDir fuel s).records) ∧
    ∀ (env : CrawlEnv) (rows : Option (List (List String)))
      (jobDir : String) (fuel : Nat),
      ((run_crawler_job env rows jobDir fuel).success = true ∧
       (run_crawler_job env rows jobDir fuel).writes =
         [(jobDir ++ "/analysis_results.json",
           (run_crawler_job env rows jobDir fuel).catalog)] ∧
       ∃ rs, rows = some rs ∧
         (run_crawler_job env rows jobDir fuel).catalog =
           ((cleanedUrls rs).map (fun u =>
             (crawl_website_images env (ensureScheme u) jobDir fuel).records)).flatten) ∨
      ((run_crawler_job env rows jobDir fuel).success = false ∧
       (run_crawler_job env rows jobDir fuel).writes = [] ∧
       (run_crawler_job env rows jobDir fuel).catalog = []) := by
  constructor
  · intro env apiPath rootHost saveDir fuel s
    exact crawlLoop_records_pre env apiPath rootHost saveDir fuel s
  · intro env rows jobDir fuel
    cases rows with
    | none => exact Or.inr ⟨rfl, rfl, rfl⟩
    | some rs =>
      by_cases h : cleanedUrls rs = []
      · right
        simp [run_crawler_job, h]
      · left
        refine ⟨?_, ?_, rs, rfl, ?_⟩
        · simp [run_crawler_job, h]
        · simp [run_crawler_job, h]
        · simp only [run_crawler_job, if_neg h]
          rw [List.map_map]
          rfl

/-- C9: under the PIL codec round-trip property (re-encoded bytes decode
back to the same raster) and base64 decode inverting encode, the bytes
written to the on-disk file (the raw fetched content) and the base64
payload handed to the analysis client decode to identical raster
content. -/
theorem c9_roundtrip (env : Env) (url : String) (c : Bytes) (dir : String)
    (img img2 : PILImage)
    (hopen : env.openImg c = some img)
    (hver : env.verifyOk img = true)
    (hb64 : env.b64decode (env.b64encode (env.encode img (img.format.getD "PNG"))) =
      env.encode img (img.format.getD "PNG"))
    (hcodec : env.openImg (env.encode img (img.format.getD "PNG")) = some img2)
    (hraster : img2.raster = img.raster) :
    ∃ payload fname,
      (get_image_content env url (some c) dir).result = some (payload, fname) ∧
      (get_image_content env url (some c) dir).writes = [(fname, c)] ∧
      (env.openImg c).map PILImage.raster = some img.raster ∧
      (env.openImg (env.b64decode payload)).map PILImage.raster =
        some img.raster := by
  refine ⟨env.b64encode (env.encode img (img.format.getD "PNG")),
    dir ++ "/" ++ env.md5 c ++ extFor env url c, ?_, ?_, ?_, ?_⟩
  · rw [gic_eq]
    simp [canonicalPayload, hopen, hver]
  · rw [gic_eq]
  · rw [hopen]
    rfl
  · rw [hb64, hcodec]
    simp [hraster]

/-- C9 witness: the round-trip statement at a concrete invertible
environment and content `[3]`. -/
theorem c9_roundtrip_witness :
    ∃ payload fname,
      (get_image_content roundBytesEnv "a.jpg" (some [3]) "d").result = some (payload, fname) ∧
      (get_image_content roundBytesEnv "a.jpg" (some [3]) "d").writes = [(fname, [3])] ∧
      (roundBytesEnv.openImg [3]).map PILImage.raster = some ([3] : List Nat) ∧
      (roundBytesEnv.openImg (roundBytesEnv.b64decode payload)).map PILImage.raster =
        some ([3] : List Nat) :=
  c9_roundtrip roundBytesEnv "a.jpg" [3] "d" ⟨[3], some "png"⟩ ⟨[3], some "png"⟩
    rfl rfl (by decide) rfl rfl

/-- C1: at a page with two images where all three analysis calls return
their failure sentinels for the first image and all succeed for the
second, the source evaluates `moderation[category][category]` — a
`str[str]` access raising `TypeError` — so the first image is indeed
dropped, but the exception is caught by the page-level handler and the
second image, whose analysis succeeded, is also lost: the catalog is
empty, while with a fully succeeding first image both records appear.
This contradicts the claim that the handling of one image never aborts
the processing of the remaining images of the page. -/
theorem c1_total_failure_typeerror :
    skipCheckEval descriptionSentinel "Unknown" ⟨"Unknown", 0⟩ =
      .error .typeError ∧
    (crawl_website_images c1Env "p" "job" 3).records = [] ∧
    c1Env.analysis "b64:[2]" = ⟨"a cat", "Animal", ⟨"Normal", 1⟩⟩ ∧
    (crawl_website_images c1EnvOk "p" "job" 3).records.length = 2 := by
  decide

/-- C10 witness: a readable CSV whose rows are an empty row, a row with an
empty first field, and a row whose first field is only whitespace. -/
theorem c10_no_urls_fails_witness :
    (run_crawler_job demoEnvBase (some [[], ["", "x"], ["  "]]) "job" 1).success = false ∧
    (run_crawler_job demoEnvBase (some [[], ["", "x"], ["  "]]) "job" 1).writes = [] ∧
    (run_crawler_job demoEnvBase (some [[], ["", "x"], ["  "]]) "job" 1).catalog = [] ∧
    (run_crawler_job demoEnvBase (some [[], ["", "x"], ["  "]]) "job" 1).discoveries = 0 :=
  c10_no_urls_fails demoEnvBase [[], ["", "x"], ["  "]] "job" 1 (by decide)
